import Mathlib

/-!
Verification of the test-backend wiring module
(`packages/backend-test-utils/src/next/wiring/TestBackend.ts`).

The module is shallowly embedded: the override normalizer, the default
merger, the two synthesized factories, the `server` accessor, the cleanup
registry and the global teardown registrar are translated into executable
Lean definitions, and the specified properties are proved about them.
-/

namespace TestBackend

/-- Scope of a service reference: either root-scoped or plugin-scoped
(`ref.scope` in the source). -/
inductive Scope where
  | root
  | plugin
deriving DecidableEq, Repr

/-- A typed service reference (`ServiceRef` from `backend-plugin-api`):
an identifier plus a declared scope.  The type parameter mirrors the
phantom type of the TypeScript interface. -/
structure ServiceRef (α : Type) where
  id : String
  scope : Scope
deriving DecidableEq, Repr

/-- The value a zero-dependency factory provides for its service:
either the implementation itself (`factory: async () => impl`) or a
zero-argument provider of the implementation
(`factory: async () => async () => impl`). -/
inductive ProvidedValue (α : Type) where
  | value : α → ProvidedValue α
  | provider : α → ProvidedValue α
deriving DecidableEq, Repr

/-- A constructed service factory (`ServiceFactory`): the service
reference it serves, its declared dependencies, and the value it
provides. -/
structure ServiceFactory (α : Type) where
  service : ServiceRef α
  deps : List String
  provided : ProvidedValue α
deriving DecidableEq, Repr

/-- One entry of the `services` option of `startTestBackend`
(`TestBackendOptions.services`): a ready factory, a factory-producing
function, or a `[ref, impl]` pair. -/
inductive ServiceDef (α : Type) where
  | factory : ServiceFactory α → ServiceDef α
  | producer : (Unit → ServiceFactory α) → ServiceDef α
  | pair : ServiceRef α → α → ServiceDef α

/-- The override normalizer: the body of the `services.map` callback at
lines 175-197 of the source.  An array entry `[ref, impl]` becomes a
zero-dependency factory — with one extra level of indirection when the
reference is plugin-scoped; a callable entry is invoked with no
arguments; anything else is passed through as an already-constructed
factory. -/
def normalizeServiceDef {α : Type} (serviceDef : ServiceDef α) : ServiceFactory α :=
  match serviceDef with
  | ServiceDef.pair ref impl =>
    if ref.scope = Scope.plugin then
      { service := ref, deps := [], provided := ProvidedValue.provider impl }
    else
      { service := ref, deps := [], provided := ProvidedValue.value impl }
  | ServiceDef.producer f => f ()
  | ServiceDef.factory f => f

/-- The full normalization pass: `services.map(serviceDef => ...)`. -/
def normalizeServices {α : Type} (services : List (ServiceDef α)) : List (ServiceFactory α) :=
  services.map normalizeServiceDef

/-- The default merger: the loop at lines 199-203 of the source.  Each
default factory is appended unless some factory already in the list has
the same service id. -/
def mergeDefaults {α : Type} (factories defaults : List (ServiceFactory α)) :
    List (ServiceFactory α) :=
  defaults.foldl
    (fun acc d =>
      if acc.any (fun f => f.service.id == d.service.id) then acc else acc ++ [d])
    factories

/-- Modelled from the spec: the fixed default factory set
(`defaultServiceFactories`, lines 85-98).  The twelve factories
themselves live in `@backstage/backend-app-api` and in the mock
implementations, outside the sources under verification; only their
distinct service identifiers and their fixed order matter to the claims,
so each is modelled as a zero-dependency factory with a placeholder
payload. -/
def defaultServiceFactories (α : Type) (a : α) : List (ServiceFactory α) :=
  [ { service := { id := "cache", scope := Scope.root }, deps := [], provided := ProvidedValue.value a },
    { service := { id := "database", scope := Scope.root }, deps := [], provided := ProvidedValue.value a },
    { service := { id := "httpRouter", scope := Scope.root }, deps := [], provided := ProvidedValue.value a },
    { service := { id := "lifecycle", scope := Scope.root }, deps := [], provided := ProvidedValue.value a },
    { service := { id := "logger", scope := Scope.root }, deps := [], provided := ProvidedValue.value a },
    { service := { id := "mockConfig", scope := Scope.root }, deps := [], provided := ProvidedValue.value a },
    { service := { id := "mockTokenManager", scope := Scope.root }, deps := [], provided := ProvidedValue.value a },
    { service := { id := "permissions", scope := Scope.root }, deps := [], provided := ProvidedValue.value a },
    { service := { id := "rootLifecycle", scope := Scope.root }, deps := [], provided := ProvidedValue.value a },
    { service := { id := "rootLogger", scope := Scope.root }, deps := [], provided := ProvidedValue.value a },
    { service := { id := "scheduler", scope := Scope.root }, deps := [], provided := ProvidedValue.value a },
    { service := { id := "urlReader", scope := Scope.root }, deps := [], provided := ProvidedValue.value a } ]

end TestBackend

namespace TestBackend

/-- Claim C1: the override normalizer behaves by shape.  An array entry
with a plugin-scoped reference yields a zero-dependency factory whose
provided value is a zero-argument provider of the implementation; with
any other scope it yields a zero-dependency factory providing the
implementation itself; a callable entry is invoked with no arguments;
any other entry passes through unchanged; and the normalizer is applied
entrywise to the services list. -/
theorem normalizeServiceDef_by_shape {α : Type} (ref : ServiceRef α) (impl : α)
    (g : Unit → ServiceFactory α) (f : ServiceFactory α) :
    (ref.scope = Scope.plugin →
      normalizeServiceDef (ServiceDef.pair ref impl) =
        { service := ref, deps := [], provided := ProvidedValue.provider impl }) ∧
    (ref.scope ≠ Scope.plugin →
      normalizeServiceDef (ServiceDef.pair ref impl) =
        { service := ref, deps := [], provided := ProvidedValue.value impl }) ∧
    normalizeServiceDef (ServiceDef.producer g) = g () ∧
    normalizeServiceDef (ServiceDef.factory f) = f ∧
    (∀ services : List (ServiceDef α), normalizeServices services = services.map normalizeServiceDef) := by
  refine ⟨fun h => ?_, fun h => ?_, rfl, rfl, fun _ => rfl⟩
  · simp [normalizeServiceDef, h]
  · simp [normalizeServiceDef, h]

/-- A concrete ready-made factory, used to instantiate the normalizer
theorems. -/
def sampleFactory : ServiceFactory Nat :=
  { service := { id := "sample", scope := Scope.root }, deps := [], provided := ProvidedValue.value 0 }

/-- Witness for C1: the two array-entry cases of the normalizer,
evaluated at concrete plugin-scoped and root-scoped references. -/
theorem normalizeServiceDef_by_shape_witness :
    normalizeServiceDef (ServiceDef.pair { id := "svcA", scope := Scope.plugin } (5 : Nat)) =
      { service := { id := "svcA", scope := Scope.plugin }, deps := [],
        provided := ProvidedValue.provider 5 } ∧
    normalizeServiceDef (ServiceDef.pair { id := "svcB", scope := Scope.root } (7 : Nat)) =
      { service := { id := "svcB", scope := Scope.root }, deps := [],
        provided := ProvidedValue.value 7 } :=
  ⟨(normalizeServiceDef_by_shape { id := "svcA", scope := Scope.plugin } 5
      (fun _ => sampleFactory) sampleFactory).1 rfl,
   (normalizeServiceDef_by_shape { id := "svcB", scope := Scope.root } 7
      (fun _ => sampleFactory) sampleFactory).2.1 (by decide)⟩

end TestBackend

namespace TestBackend

/-- Unfolding of one step of the default-merging fold. -/
theorem mergeDefaults_cons {α : Type} (user : List (ServiceFactory α))
    (d : ServiceFactory α) (ds : List (ServiceFactory α)) :
    mergeDefaults user (d :: ds) =
      mergeDefaults
        (if user.any (fun f => f.service.id == d.service.id) then user else user ++ [d])
        ds := rfl

/-- When the default factories have pairwise distinct service ids, the
merging loop appends to the user list exactly the defaults whose id does
not occur among the user factories, in order. -/
theorem mergeDefaults_eq_append_filter {α : Type} (defaults : List (ServiceFactory α)) :
    ∀ user : List (ServiceFactory α),
      (defaults.map (fun f => f.service.id)).Nodup →
      mergeDefaults user defaults =
        user ++ defaults.filter
          (fun d => !(user.any (fun f => f.service.id == d.service.id))) := by
  induction defaults with
  | nil => intro user _; simp [mergeDefaults]
  | cons d ds ih =>
    intro user hnd
    rw [List.map_cons, List.nodup_cons] at hnd
    obtain ⟨hdni, hnds⟩ := hnd
    rw [mergeDefaults_cons]
    by_cases h : user.any (fun f => f.service.id == d.service.id) = true
    · rw [if_pos h, ih user hnds, List.filter_cons]
      simp [h]
    · have hfalse : user.any (fun f => f.service.id == d.service.id) = false :=
        Bool.eq_false_iff.mpr h
      rw [if_neg h, ih (user ++ [d]) hnds]
      have hpred : ∀ e ∈ ds,
          (!((user ++ [d]).any (fun f => f.service.id == e.service.id)))
            = (!(user.any (fun f => f.service.id == e.service.id))) := by
        intro e he
        have hne : (d.service.id == e.service.id) = false := by
          apply beq_eq_false_iff_ne.mpr
          intro hEq
          exact hdni (hEq ▸ List.mem_map_of_mem (fun f => f.service.id) he)
      
        rw [List.any_append]
        simp [hne]
      rw [List.filter_congr hpred, List.filter_cons]
      simp [hfalse, List.append_assoc]

end TestBackend

namespace TestBackend

/-- The twelve default service identifiers are pairwise distinct. -/
theorem defaultServiceFactories_ids_nodup {α : Type} (a : α) :
    ((defaultServiceFactories α a).map (fun f => f.service.id)).Nodup := by
  have h : (defaultServiceFactories α a).map (fun f => f.service.id) =
      ["cache", "database", "httpRouter", "lifecycle", "logger", "mockConfig",
       "mockTokenManager", "permissions", "rootLifecycle", "rootLogger",
       "scheduler", "urlReader"] := rfl
  rw [h]
  decide

/-- Claim C2: the default merger appends to the user factory list exactly
those default factories whose service identifier does not already occur
in the list; every user factory is left unchanged and precedes all
appended defaults, and the appended defaults keep their fixed relative
order. -/
theorem mergeDefaults_appends_missing_defaults {α : Type} (a : α)
    (user : List (ServiceFactory α)) :
    mergeDefaults user (defaultServiceFactories α a) =
      user ++ (defaultServiceFactories α a).filter
        (fun d => !(user.any (fun f => f.service.id == d.service.id))) :=
  mergeDefaults_eq_append_filter (defaultServiceFactories α a) user
    (defaultServiceFactories_ids_nodup a)

end TestBackend

namespace TestBackend

/-- A services list with two array entries sharing the identifier
"dup": the merging loop never deduplicates user entries. -/
def duplicateIdServices : List (ServiceDef Nat) :=
  [ServiceDef.pair { id := "dup", scope := Scope.root } 1,
   ServiceDef.pair { id := "dup", scope := Scope.root } 2]

/-- Counterexample to claim C3 as stated: with two user entries sharing
the identifier "dup", the merged list contains two factories for that
identifier, so it is not the case that every input services list yields
exactly one factory per service identifier. -/
theorem merged_one_per_id_cex :
    ¬ (∀ i : String,
        i ∈ (mergeDefaults (normalizeServices duplicateIdServices)
              (defaultServiceFactories Nat 0)).map (fun f => f.service.id) →
        (mergeDefaults (normalizeServices duplicateIdServices)
              (defaultServiceFactories Nat 0)).countP
          (fun f => f.service.id == i) = 1) := by
  intro h
  have hdup := h "dup" (by decide)
  exact absurd hdup (by decide)

/-- Claim C3 (amended): provided the normalized user factories have
pairwise distinct identifiers, the merged list contains exactly one
factory per service identifier, and for every identifier supplied by the
user the factories surviving under that identifier are exactly the
user's. -/
theorem merged_one_factory_per_id_user_wins {α : Type} (a : α)
    (services : List (ServiceDef α))
    (hnd : ((normalizeServices services).map (fun f => f.service.id)).Nodup) :
    ((mergeDefaults (normalizeServices services) (defaultServiceFactories α a)).map
        (fun f => f.service.id)).Nodup ∧
    (∀ i : String,
      (normalizeServices services).any (fun f => f.service.id == i) = true →
        (mergeDefaults (normalizeServices services) (defaultServiceFactories α a)).filter
            (fun f => f.service.id == i) =
          (normalizeServices services).filter (fun f => f.service.id == i)) := by
  have hmerge := mergeDefaults_eq_append_filter (defaultServiceFactories α a)
    (normalizeServices services) (defaultServiceFactories_ids_nodup a)
  constructor
  · rw [hmerge, List.map_append, List.nodup_append]
    refine ⟨hnd, ?_, ?_⟩
    · exact List.Nodup.sublist ((List.filter_sublist _).map _)
        (defaultServiceFactories_ids_nodup a)
    · intro x hxu hxf
      obtain ⟨f, hfmem, hfid⟩ := List.mem_map.mp hxu
      obtain ⟨d, hdmem, hdid⟩ := List.mem_map.mp hxf
      obtain ⟨_, hdp⟩ := List.mem_filter.mp hdmem
      have hany : (normalizeServices services).any
          (fun g => g.service.id == d.service.id) = false := by
        simpa using hdp
      have hnotf := (List.any_eq_false.mp hany) f hfmem
      exact hnotf (beq_iff_eq.mpr (hfid.trans hdid.symm))
  · intro i hi
    rw [hmerge, List.filter_append]
    have hnil : ((defaultServiceFactories α a).filter
        (fun d => !((normalizeServices services).any
          (fun f => f.service.id == d.service.id)))).filter
        (fun f => f.service.id == i) = [] := by
      rw [List.filter_eq_nil_iff]
      intro d hdmem
      obtain ⟨_, hdp⟩ := List.mem_filter.mp hdmem
      have hany : (normalizeServices services).any
          (fun g => g.service.id == d.service.id) = false := by
        simpa using hdp
      obtain ⟨f, hfmem, hfi⟩ := List.any_eq_true.mp hi
      intro hdi
      have hnotf := (List.any_eq_false.mp hany) f hfmem
      exact hnotf (beq_iff_eq.mpr
        ((beq_iff_eq.mp hfi).trans (beq_iff_eq.mp hdi).symm))
    rw [hnil, List.append_nil]

/-- Witness for the amended claim C3: a single user override of the
"cache" identifier, which clashes with a default; the merged list has
pairwise distinct identifiers and the surviving "cache" factory is the
user's. -/
theorem merged_one_factory_per_id_user_wins_witness :
    ((mergeDefaults
        (normalizeServices [ServiceDef.pair { id := "cache", scope := Scope.root } (1 : Nat)])
        (defaultServiceFactories Nat 0)).map (fun f => f.service.id)).Nodup ∧
    (mergeDefaults
        (normalizeServices [ServiceDef.pair { id := "cache", scope := Scope.root } (1 : Nat)])
        (defaultServiceFactories Nat 0)).filter (fun f => f.service.id == "cache") =
      (normalizeServices [ServiceDef.pair { id := "cache", scope := Scope.root } (1 : Nat)]).filter
        (fun f => f.service.id == "cache") := by
  have h := merged_one_factory_per_id_user_wins (0 : Nat)
    [ServiceDef.pair { id := "cache", scope := Scope.root } (1 : Nat)] (by decide)
  exact ⟨h.1, h.2 "cache" (by decide)⟩

end TestBackend

namespace TestBackend

/-- The live HTTP server handle (`ExtendedHttpServer`): for the claims
only the bound port is observed (`server.port()`). -/
structure ExtendedHttpServer where
  port : Nat
deriving DecidableEq, Repr

/-- The live-server slot right after `let server: ExtendedHttpServer;`
at line 116: unpopulated. -/
def initialServerSlot : Option ExtendedHttpServer := none

/-- The computed `server` accessor attached to the returned backend
(lines 230-235): throws when the live-server slot is unpopulated,
otherwise returns the live server handle. -/
def serverAccessor (slot : Option ExtendedHttpServer) : Except String ExtendedHttpServer :=
  match slot with
  | none => Except.error "TestBackend server is not available"
  | some s => Except.ok s

/-- Claim C4: the `server` accessor throws the access-before-ready error
exactly when the live-server slot is unpopulated — in particular at the
initial slot state, before the start sequence has populated it — and
once the slot holds a server it returns that handle without throwing. -/
theorem serverAccessor_throws_iff_unpopulated :
    serverAccessor none = Except.error "TestBackend server is not available" ∧
    initialServerSlot = none ∧
    (∀ s : ExtendedHttpServer, serverAccessor (some s) = Except.ok s) :=
  ⟨rfl, rfl, fun _ => rfl⟩

/-- The discovery configuration handed to the single-host discovery
constructor (line 168): the backend base URL and the backend listen
port. -/
structure DiscoveryConfig where
  baseUrl : String
  listenPort : Nat
deriving DecidableEq, Repr

/-- Modelled from the spec: `SingleHostDiscovery.fromConfig` lives in
`@backstage/backend-common`, outside the sources under verification; the
claims only observe the configuration it is given, so it is modelled as
a constructor keeping that configuration. -/
structure SingleHostDiscovery where
  config : DiscoveryConfig
deriving DecidableEq, Repr

/-- A zero-argument asynchronous provider (`async () => x`), the shape
the discovery factory returns at line 171. -/
inductive AsyncProvider (α : Type) where
  | mk : α → AsyncProvider α
deriving DecidableEq, Repr

/-- The synthesized discovery factory body (lines 161-172): fails when
the live-server slot is empty, otherwise builds a single-host discovery
from the bound port and returns it behind an async provider. -/
def discoveryFactoryImpl (slot : Option ExtendedHttpServer) :
    Except String (AsyncProvider SingleHostDiscovery) :=
  match slot with
  | none => Except.error "Test server not started yet"
  | some server =>
    let port := server.port
    let discovery : SingleHostDiscovery :=
      { config := { baseUrl := "http://localhost:" ++ toString port, listenPort := port } }
    Except.ok (AsyncProvider.mk discovery)

/-- Claim C5: the discovery factory fails with the error
"Test server not started yet" exactly when the live-server slot is
empty; otherwise it returns an async provider of a single-host discovery
whose base URL is http://localhost:<port> for the bound port and whose
listen-port field equals that same port. -/
theorem discoveryFactoryImpl_spec :
    discoveryFactoryImpl none = Except.error "Test server not started yet" ∧
    (∀ s : ExtendedHttpServer,
      discoveryFactoryImpl (some s) =
        Except.ok (AsyncProvider.mk
          { config := { baseUrl := "http://localhost:" ++ toString s.port,
                        listenPort := s.port } })) :=
  ⟨rfl, fun _ => rfl⟩

end TestBackend

namespace TestBackend

/-- The operation a registered lifecycle shutdown hook performs on the
live server. -/
inductive ServerOp where
  | stop
deriving DecidableEq, Repr

/-- One step of the synthesized root HTTP router factory body
(lines 126-152): router and logger construction, the three
`app.use` calls, server creation (which writes the live-server slot),
shutdown-hook registration, server start, and the final return. -/
inductive RouterStep where
  | createRouter
  | createChildLogger
  | createApp
  | createMiddleware
  | useRouterHandler
  | useNotFound
  | useError
  | createServer (host : String) (port : Nat)
  | addShutdownHook (hook : ServerOp)
  | startServer
  | returnRouter
deriving DecidableEq, Repr

/-- The steps of the synthesized root HTTP router factory, in source
order (lines 126-152): the server handle is created with host "" and
port 0 and stored in the slot, the shutdown hook stopping the server is
registered, and only then is the server started. -/
def rootHttpRouterFactorySteps : List RouterStep :=
  [RouterStep.createRouter,
   RouterStep.createChildLogger,
   RouterStep.createApp,
   RouterStep.createMiddleware,
   RouterStep.useRouterHandler,
   RouterStep.useNotFound,
   RouterStep.useError,
   RouterStep.createServer "" 0,
   RouterStep.addShutdownHook ServerOp.stop,
   RouterStep.startServer,
   RouterStep.returnRouter]

/-- Holds of the step that creates the network server and writes the
live-server slot. -/
def isCreateServer (s : RouterStep) : Bool :=
  match s with
  | RouterStep.createServer _ _ => true
  | _ => false

/-- Counterexample to claim C6 as stated: in the synthesized root HTTP
router factory the server start does not precede the shutdown-hook
registration; the hook is registered first and the server is started
afterwards. -/
theorem rootHttpRouterFactory_start_order_cex :
    ¬ (rootHttpRouterFactorySteps.findIdx (· == RouterStep.startServer) <
       rootHttpRouterFactorySteps.findIdx
         (· == RouterStep.addShutdownHook ServerOp.stop)) := by
  decide

/-- Claim C6 (amended): the synthesized root HTTP router factory
attaches the router handler before the not-found and error middleware,
creates the network server with host "" and port 0 writing the
live-server slot exactly once, registers the lifecycle shutdown hook
that stops the server, then starts the server, and finally returns the
router; hook registration precedes the server start. -/
theorem rootHttpRouterFactory_step_order :
    rootHttpRouterFactorySteps.findIdx (· == RouterStep.useRouterHandler) <
      rootHttpRouterFactorySteps.findIdx (· == RouterStep.useNotFound) ∧
    rootHttpRouterFactorySteps.findIdx (· == RouterStep.useNotFound) <
      rootHttpRouterFactorySteps.findIdx (· == RouterStep.useError) ∧
    RouterStep.createServer "" 0 ∈ rootHttpRouterFactorySteps ∧
    rootHttpRouterFactorySteps.countP isCreateServer = 1 ∧
    rootHttpRouterFactorySteps.findIdx isCreateServer <
      rootHttpRouterFactorySteps.findIdx
        (· == RouterStep.addShutdownHook ServerOp.stop) ∧
    rootHttpRouterFactorySteps.findIdx
        (· == RouterStep.addShutdownHook ServerOp.stop) <
      rootHttpRouterFactorySteps.findIdx (· == RouterStep.startServer) ∧
    rootHttpRouterFactorySteps.getLast? = some RouterStep.returnRouter := by
  decide

end TestBackend

namespace TestBackend

/-- A started backend instance as seen by the cleanup machinery: an
identity and the behaviour of its `stop()` call (`none` resolves,
`some e` rejects with error `e`). -/
structure BackendInstance where
  idx : Nat
  stopError : Option String
deriving DecidableEq, Repr

/-- Per-backend cleanup action from the teardown hook (lines 251-257):
`backend.stop()` is awaited inside try/catch, and a rejection is caught
and turned into a logged error line; the wrapper itself never throws. -/
def cleanupBackend (b : BackendInstance) : Except String (Option String) :=
  match b.stopError with
  | none => Except.ok none
  | some e => Except.ok (some ("Failed to stop backend after tests, " ++ e))

/-- Sequencing of the per-backend cleanup actions (the Promise.all at
lines 250-258): collects one log slot per backend, and would propagate
a rejection of any single cleanup action. -/
def runCleanups : List BackendInstance → Except String (List (Option String))
  | [] => Except.ok []
  | b :: rest =>
    match cleanupBackend b with
    | Except.ok log =>
      match runCleanups rest with
      | Except.ok logs => Except.ok (log :: logs)
      | Except.error e => Except.error e
    | Except.error e => Except.error e

/-- The global teardown hook body (lines 249-260): run all cleanups,
then clear the registry (`backendInstancesToCleanUp.length = 0`).  The
first component is the hook outcome (error means the hook itself
throws), the second the registry contents afterwards. -/
def afterAllHook (registry : List BackendInstance) :
    Except String (List (Option String)) × List BackendInstance :=
  match runCleanups registry with
  | Except.ok logs => (Except.ok logs, [])
  | Except.error e => (Except.error e, registry)

/-- The log line the teardown hook produces for one backend: nothing
when its stop resolves, the logged error line when its stop rejects. -/
def stopLog (b : BackendInstance) : Option String :=
  match b.stopError with
  | none => none
  | some e => some ("Failed to stop backend after tests, " ++ e)

/-- Claim C7: for any registry contents, the teardown hook performs one
cleanup per recorded backend in order — rejected stop calls are caught
and logged, not propagated — the hook itself completes without throwing,
and the registry is empty afterwards. -/
theorem afterAllHook_stops_all_and_clears (registry : List BackendInstance) :
    afterAllHook registry = (Except.ok (registry.map stopLog), []) := by
  have h : runCleanups registry = Except.ok (registry.map stopLog) := by
    induction registry with
    | nil => rfl
    | cons b rest ih =>
      rw [List.map_cons]
      cases hb : b.stopError with
      | none => simp [runCleanups, cleanupBackend, hb, ih, stopLog]
      | some e => simp [runCleanups, cleanupBackend, hb, ih, stopLog]
  simp [afterAllHook, h]

end TestBackend

namespace TestBackend

/-- The composition-and-start tail of `startTestBackend`
(lines 205-227): the backend is pushed onto the process-wide cleanup
registry (line 210) and only afterwards is `backend.start()` awaited
(line 227); `startError` is the outcome of that await (`none` resolves,
`some e` rejects).  The first component is the call outcome, the second
the registry afterwards. -/
def startTestBackendRun (registry : List BackendInstance) (backend : BackendInstance)
    (startError : Option String) :
    Except String BackendInstance × List BackendInstance :=
  let registry' := registry ++ [backend]
  match startError with
  | none => (Except.ok backend, registry')
  | some e => (Except.error e, registry')

/-- Counterexample to claim C8 as stated: a call whose start fails does
not leave the registry unchanged — starting from an empty registry, a
failing start still leaves the new instance recorded. -/
theorem registry_appended_on_failed_start_cex :
    (startTestBackendRun [] { idx := 0, stopError := none } (some "boom")).1 =
      Except.error "boom" ∧
    (startTestBackendRun [] { idx := 0, stopError := none } (some "boom")).2 =
      [{ idx := 0, stopError := none }] ∧
    (startTestBackendRun [] { idx := 0, stopError := none } (some "boom")).2 ≠ [] :=
  ⟨rfl, rfl, by decide⟩

/-- Claim C8 (amended): every `startTestBackend` call that reaches the
composition step appends its instance to the cleanup registry before
`backend.start()` is awaited, so the registry gains the instance whether
the start resolves or rejects; a rejecting start propagates its error
while the instance stays recorded. -/
theorem registry_appended_before_start (registry : List BackendInstance)
    (backend : BackendInstance) (startError : Option String) :
    (startTestBackendRun registry backend startError).2 = registry ++ [backend] := by
  cases startError with
  | none => rfl
  | some e => rfl

end TestBackend

namespace TestBackend

/-- Allocation of the live-server slot: `let server: ExtendedHttpServer;`
at line 116 is declared inside the body of `startTestBackend`, so every
invocation allocates a fresh, initially unpopulated slot.  Slots are
modelled as a store indexed by allocation order; the result is the new
slot index together with the extended store. -/
def allocServerSlot (slots : List (Option ExtendedHttpServer)) :
    Nat × List (Option ExtendedHttpServer) :=
  (slots.length, slots ++ [none])

/-- Write a server handle into one slot of the store (the assignment
`server = await createHttpServer(...)` at line 137 of the invocation
owning slot `i`). -/
def writeServerSlot : List (Option ExtendedHttpServer) → Nat → ExtendedHttpServer →
    List (Option ExtendedHttpServer)
  | [], _, _ => []
  | _ :: rest, 0, s => some s :: rest
  | c :: rest, n + 1, s => c :: writeServerSlot rest n s

/-- Read one slot of the store (the reads in the discovery factory and
the `server` accessor of the invocation owning slot `i`). -/
def readServerSlot : List (Option ExtendedHttpServer) → Nat → Option ExtendedHttpServer
  | [], _ => none
  | c :: _, 0 => c
  | _ :: rest, n + 1 => readServerSlot rest n

/-- Counterexample to claim C9 as stated: two invocations of
`startTestBackend` do not share one slot.  Starting from an empty store,
the first invocation gets slot 0 and the second slot 1; after the first
invocation writes its server handle, the second invocation still reads
its own slot as unpopulated, so the invocations do not interfere through
the slot. -/
theorem serverSlot_not_shared_cex :
    (allocServerSlot []).1 ≠ (allocServerSlot (allocServerSlot []).2).1 ∧
    readServerSlot
        (writeServerSlot (allocServerSlot (allocServerSlot []).2).2
          (allocServerSlot []).1 { port := 4321 })
        (allocServerSlot (allocServerSlot []).2).1 = none := by
  decide

/-- Claim C9 (amended): the live-server slot is per-invocation, not
module-level.  Each `startTestBackend` call allocates a fresh
unpopulated slot whose index is the number of previously allocated
slots — so successive calls use distinct slots — and a write through one
slot leaves every other slot unchanged. -/
theorem serverSlot_per_invocation (slots : List (Option ExtendedHttpServer))
    (s : ExtendedHttpServer) (i j : Nat) (hij : i ≠ j) :
    (allocServerSlot slots).1 = slots.length ∧
    readServerSlot (allocServerSlot slots).2 (allocServerSlot slots).1 = none ∧
    readServerSlot (writeServerSlot slots i s) j = readServerSlot slots j := by
  refine ⟨rfl, ?_, ?_⟩
  · show readServerSlot (slots ++ [none]) slots.length = none
    induction slots with
    | nil => rfl
    | cons c rest ih => simpa [readServerSlot] using ih
  · induction slots generalizing i j with
    | nil => cases i <;> rfl
    | cons c rest ih =>
      cases i with
      | zero =>
        cases j with
        | zero => exact absurd rfl hij
        | succ j => rfl
      | succ i =>
        cases j with
        | zero => rfl
        | succ j =>
          exact ih i j (fun h => hij (congrArg Nat.succ h))

/-- Witness for the amended claim C9: concrete store with two slots,
writing slot 0 does not change what slot 1 reads. -/
theorem serverSlot_per_invocation_witness :
    (allocServerSlot [none, none]).1 = 2 ∧
    readServerSlot (allocServerSlot [none, none]).2 (allocServerSlot [none, none]).1 = none ∧
    readServerSlot (writeServerSlot [none, none] 0 { port := 8080 }) 1 =
      readServerSlot [none, none] 1 :=
  serverSlot_per_invocation [none, none] { port := 8080 } 0 1 (by decide)

end TestBackend

namespace TestBackend

/-- State of the global teardown registrar: the module-level `registered`
flag (line 239) and the number of times a hook has actually been handed
to the test-framework `afterAll` extension point. -/
structure HookState where
  registered : Bool
  installedHooks : Nat
deriving DecidableEq, Repr

/-- State at module load: not registered, no hook installed. -/
def initialHookState : HookState :=
  { registered := false, installedHooks := 0 }

/-- The global teardown registrar `registerTestHooks` (lines 240-261):
a no-op when the test-framework global `afterAll` is absent; a no-op
when the guard flag is already set; otherwise it sets the guard flag and
installs the after-all hook once. -/
def registerTestHooks (afterAllDefined : Bool) (st : HookState) : HookState :=
  if !afterAllDefined then st
  else if st.registered then st
  else { registered := true, installedHooks := st.installedHooks + 1 }

/-- Once the guard flag is set, further calls change nothing. -/
theorem registerTestHooks_of_registered (st : HookState) (h : st.registered = true) :
    registerTestHooks true st = st := by
  simp [registerTestHooks, h]

/-- Claim C10: installing the global teardown hook is guarded and
idempotent.  When the `afterAll` global is absent the registrar is a
no-op on any state; when it is present the registrar is idempotent, and
any positive number of calls starting from the initial module state
installs the hook exactly once. -/
theorem registerTestHooks_idempotent_guarded :
    (∀ st : HookState, registerTestHooks false st = st) ∧
    (∀ st : HookState,
      registerTestHooks true (registerTestHooks true st) = registerTestHooks true st) ∧
    (∀ n : Nat, 1 ≤ n →
      (registerTestHooks true)^[n] initialHookState =
        { registered := true, installedHooks := 1 }) := by
  refine ⟨fun st => rfl, fun st => ?_, fun n hn => ?_⟩
  · by_cases h : st.registered = true
    · rw [registerTestHooks_of_registered st h, registerTestHooks_of_registered st h]
    · have h1 : registerTestHooks true st =
          { registered := true, installedHooks := st.installedHooks + 1 } := by
        simp [registerTestHooks, h]
      rw [h1, registerTestHooks_of_registered _ rfl]
  · obtain ⟨m, rfl⟩ := Nat.exists_eq_add_of_le hn
    rw [Nat.add_comm, Function.iterate_add_apply]
    have h1 : (registerTestHooks true)^[1] initialHookState =
        { registered := true, installedHooks := 1 } := rfl
    rw [h1]
    clear hn
    induction m with
    | zero => rfl
    | succ k ih =>
      rw [Function.iterate_succ_apply, registerTestHooks_of_registered _ rfl, ih]

/-- Witness for C10: three consecutive calls with the global present,
starting at module load, install the hook exactly once. -/
theorem registerTestHooks_idempotent_guarded_witness :
    (registerTestHooks true)^[3] initialHookState =
      { registered := true, installedHooks := 1 } :=
  registerTestHooks_idempotent_guarded.2.2 3 (by decide)

end TestBackend
